import Mathlib

/-!
Verification development for the wastewater-treatment-network example scripts.

Each Pyomo script is shallowly embedded as: parameter functions over `ℚ` (or
`ℝ` where the source uses a real power), an assignment structure holding one
value per declared variable, and one `Prop` per constraint family, translated
from the source constraint rules.  Feasibility of an assignment is the
conjunction of all constraint families together with the declared variable
domains and bounds.

Embedded sources:
* `SWTN`  — examples/gdp/simpleWaterTreatmentNetwork.py
* `WTNE8` — examples/gdp/WTN_e8_CF.py
* `SLWTN` — examples/gdp/small_lit/waterTreatmentNetwork.py
* `Draft` — examples/gdp/waterTreatmentNetwork.py (unfinished draft)
* `Demo`  — examples/gdp/waterDemo.py

Index sets use 0-based `Fin` while the sources use 1-based `RangeSet`; each
branch condition is translated accordingly and commented.
-/

/-- Sum of a `ℚ`-valued family over `Fin n`, mirroring the `sum(...)`
generator expressions of the sources. -/
def qsum {n : Nat} (f : Fin n → ℚ) : ℚ :=
  (List.finRange n).foldr (fun i acc => f i + acc) 0

/-- Component set `{'A', 'B', 'W'}` of simpleWaterTreatmentNetwork.py and
waterDemo.py.  `W` is the water carrier pseudo-component. -/
inductive Comp3 where
  | A | B | W
deriving DecidableEq, Fintype

/-- Component set `{'A', 'B', 'C', 'W'}` of WTN_e8_CF.py and
small_lit/waterTreatmentNetwork.py. -/
inductive Comp4 where
  | A | B | C | W
deriving DecidableEq, Fintype

namespace SWTN

/-- Inlet total flows `in_flows = {1:40, 2:40}` (t/h). -/
def in_flows : Fin 2 → ℚ
  | 0 => 40
  | 1 => 40

/-- Inlet concentrations `in_concs` (ppm), with `W` set to 1. -/
def in_concs : Fin 2 → Comp3 → ℚ
  | 0, .A => 100
  | 0, .B => 20
  | 0, .W => 1
  | 1, .A => 15
  | 1, .B => 200
  | 1, .W => 1

/-- Param `in_comp_flow(flow, comp) = in_flows[flow] * in_concs[flow][comp]`. -/
def in_comp_flow (f : Fin 2) (c : Comp3) : ℚ := in_flows f * in_concs f c

/-- Discharge limits `limits = {'A':10, 'B':10, 'W':1}` (ppm). -/
def limits : Comp3 → ℚ
  | .A => 10
  | .B => 10
  | .W => 1

/-- `m.out_flow_total = sum(in_flows[i] for i in m.in_flows)`. -/
def out_flow_total : ℚ := qsum in_flows

/-- Param `out_comp_flow(comp) = out_flow_total * limits[comp]`. -/
def out_comp_flow (c : Comp3) : ℚ := out_flow_total * limits c

/-- Column 1 of `equipment_info` (removal ratio of A, percent). -/
def equipment_rrA : Fin 2 → ℚ
  | 0 => 95
  | 1 => 0

/-- Column 2 of `equipment_info` (removal ratio of B, percent). -/
def equipment_rrB : Fin 2 → ℚ
  | 0 => 0
  | 1 => 97.6

/-- Param `beta(equip, comp)`: percent table entry divided by 100, and 0 for
the water component. -/
def beta (e : Fin 2) (c : Comp3) : ℚ :=
  match c with
  | .A => equipment_rrA e / 100
  | .B => equipment_rrB e / 100
  | .W => 0

/-- One value per declared Pyomo variable of the model. -/
structure Asg where
  S_k : Fin 4 → Fin 3 → Comp3 → ℚ
  M_k : Fin 3 → Fin 4 → Comp3 → ℚ
  IPU : Fin 2 → Comp3 → ℚ
  OPU : Fin 2 → Comp3 → ℚ
  split : Fin 4 → Fin 3 → ℚ

/-- Sum of mixer `m`'s inbound streams for component `c`. -/
abbrev mixInSum (a : Asg) (m : Fin 3) (c : Comp3) : ℚ :=
  qsum fun i => a.M_k m i c

/-- Left-hand side of `mixer_balance`: the source returns
`IPU[mixer,comp] == sum(...)` when `mixer < len(m.mixers)` (0-based:
`m.val < 2`) and `out_comp_flow[comp] == sum(...)` for the last mixer. -/
def mixerLhs (a : Asg) (m : Fin 3) (c : Comp3) : ℚ :=
  if h : m.val < 2 then a.IPU ⟨m.val, h⟩ c else out_comp_flow c

/-- Constraint `mixer_balance(m, mixer, comp)`: note that in this script the
last (terminal) mixer's balance is an equality for every component. -/
abbrev mixer_balance (a : Asg) (m : Fin 3) (c : Comp3) : Prop :=
  mixerLhs a m c = mixInSum a m c

/-- Constraint `split_mix`: `M_k[mixer,splitter,comp] == S_k[splitter,mixer,comp]`. -/
abbrev split_mix (a : Asg) (s : Fin 4) (m : Fin 3) (c : Comp3) : Prop :=
  a.M_k m s c = a.S_k s m c

/-- Inlet stream of splitter `s`: the source branches on
`splitter <= len(m.in_flows)` (0-based: `s.val < 2`), using the fixed inlet
component flow for the first two splitters and the treatment-unit outlet
`OPU[splitter - len(m.in_flows)]` for the rest. -/
def splitterInlet (a : Asg) (s : Fin 4) (c : Comp3) : ℚ :=
  if h : s.val < 2 then in_comp_flow ⟨s.val, h⟩ c
  else a.OPU ⟨s.val - 2, by have := s.isLt; omega⟩ c

/-- Constraint `splitter_balance`: splitter inlet equals the sum of its
outlet streams. -/
abbrev splitter_balance (a : Asg) (s : Fin 4) (c : Comp3) : Prop :=
  splitterInlet a s c = qsum fun o => a.S_k s o c

/-- Constraint `split_fraction_balance`: `1 == sum(split[splitter,outlet])`. -/
abbrev split_fraction_balance (a : Asg) (s : Fin 4) : Prop :=
  1 = qsum fun o => a.split s o

/-- Constraint `flow_split_balance`:
`S_k[splitter,outlet,comp] == split[splitter,outlet] * <splitter inlet>`. -/
abbrev flow_split_balance (a : Asg) (s : Fin 4) (o : Fin 3) (c : Comp3) : Prop :=
  a.S_k s o c = a.split s o * splitterInlet a s c

/-- Constraint `component_removal`:
`OPU[equip,comp] == (1-beta[equip,comp])*IPU[equip,comp]`. -/
abbrev component_removal (a : Asg) (t : Fin 2) (c : Comp3) : Prop :=
  a.OPU t c = (1 - beta t c) * a.IPU t c

/-- Constraint `total_tru_flow_balance`: `IPU[equip,'W'] == OPU[equip,'W']`. -/
abbrev total_tru_flow_balance (a : Asg) (t : Fin 2) : Prop :=
  a.IPU t .W = a.OPU t .W

/-- Declared variable domains: every variable is `NonNegativeReals` and the
split fractions additionally carry `bounds=(0,1)`. -/
abbrev Domains (a : Asg) : Prop :=
  (∀ s o c, 0 ≤ a.S_k s o c) ∧ (∀ m i c, 0 ≤ a.M_k m i c) ∧
  (∀ t c, 0 ≤ a.IPU t c) ∧ (∀ t c, 0 ≤ a.OPU t c) ∧
  (∀ s o, 0 ≤ a.split s o ∧ a.split s o ≤ 1)

/-- Feasibility: all constraint families of the model plus variable domains. -/
abbrev Feasible (a : Asg) : Prop :=
  (∀ m c, mixer_balance a m c) ∧
  (∀ s m c, split_mix a s m c) ∧
  (∀ s c, splitter_balance a s c) ∧
  (∀ s, split_fraction_balance a s) ∧
  (∀ s o c, flow_split_balance a s o c) ∧
  (∀ t c, component_removal a t c) ∧
  (∀ t, total_tru_flow_balance a t) ∧
  Domains a

/-- Objective `minCost = sum(OPU[t,'W'] for t in m.tru)`. -/
def minCost (a : Asg) : ℚ := qsum fun t : Fin 2 => a.OPU t .W

/-- Split fractions of a concrete feasible routing: inlet 1 wholly to
treatment unit 1, inlet 2 wholly to unit 2, a `15/61` recycle of unit 1's
effluent into unit 2, the rest discharged. -/
def solSplit : Fin 4 → Fin 3 → ℚ
  | 0, 0 => 1
  | 0, 1 => 0
  | 0, 2 => 0
  | 1, 0 => 0
  | 1, 1 => 1
  | 1, 2 => 0
  | 2, 0 => 0
  | 2, 1 => 15/61
  | 2, 2 => 46/61
  | 3, 0 => 0
  | 3, 1 => 0
  | 3, 2 => 1

/-- Treatment-unit inlet flows of the concrete routing. -/
def solIPU : Fin 2 → Comp3 → ℚ
  | 0, .A => 4000
  | 0, .B => 800
  | 0, .W => 40
  | 1, .A => 39600/61
  | 1, .B => 500000/61
  | 1, .W => 3040/61

/-- Treatment-unit outlet flows of the concrete routing. -/
def solOPU : Fin 2 → Comp3 → ℚ
  | 0, .A => 200
  | 0, .B => 800
  | 0, .W => 40
  | 1, .A => 39600/61
  | 1, .B => 12000/61
  | 1, .W => 3040/61

/-- Inlet stream of each splitter in the concrete routing. -/
def solInlet : Fin 4 → Comp3 → ℚ
  | 0, c => in_comp_flow 0 c
  | 1, c => in_comp_flow 1 c
  | 2, c => solOPU 0 c
  | 3, c => solOPU 1 c

/-- Splitter effluent streams of the concrete routing. -/
def solSk (s : Fin 4) (o : Fin 3) (c : Comp3) : ℚ := solSplit s o * solInlet s c

/-- Mixer inlet streams of the concrete routing (splitter `i`'s outlet `m`
feeds mixer `m`'s inlet `i`). -/
def solMk (m : Fin 3) (i : Fin 4) (c : Comp3) : ℚ := solSk i m c

/-- A concrete feasible assignment of the model. -/
def sol : Asg := ⟨solSk, solMk, solIPU, solOPU, solSplit⟩

/-- The all-zero assignment. -/
def zeroAsg : Asg := ⟨fun _ _ _ => 0, fun _ _ _ => 0, fun _ _ => 0, fun _ _ => 0, fun _ _ => 0⟩

end SWTN

namespace WTNE8

/-- Inlet total flows `in_flows = {1:20, 2:15, 3:5}` (t/h). -/
def in_flows : Fin 3 → ℚ
  | 0 => 20
  | 1 => 15
  | 2 => 5

/-- Inlet concentrations `in_concs` (ppm), with `W` set to 1. -/
def in_concs : Fin 3 → Comp4 → ℚ
  | 0, .A => 600
  | 0, .B => 500
  | 0, .C => 500
  | 0, .W => 1
  | 1, .A => 400
  | 1, .B => 200
  | 1, .C => 100
  | 1, .W => 1
  | 2, .A => 200
  | 2, .B => 1000
  | 2, .C => 200
  | 2, .W => 1

/-- Param `in_comp_flow(flow, comp) = in_flows[flow] * in_concs[flow][comp]`. -/
def in_comp_flow (f : Fin 3) (c : Comp4) : ℚ := in_flows f * in_concs f c

/-- Discharge limits `limits = {'A':100, 'B':100, 'C':100, 'W':1}` (ppm). -/
def limits : Comp4 → ℚ
  | .A => 100
  | .B => 100
  | .C => 100
  | .W => 1

/-- `m.out_flow_total = sum(in_flows[i] for i in m.in_flows)`. -/
def out_flow_total : ℚ := qsum in_flows

/-- Param `out_comp_flow(comp) = out_flow_total * limits[comp]`. -/
def out_comp_flow (c : Comp4) : ℚ := out_flow_total * limits c

/-- Removal-ratio columns of `equipment_info` (percent), for A, B and C. -/
def equipment_rrA : Fin 6 → ℚ
  | 0 => 50
  | 1 => 90
  | _ => 0

/-- Removal ratio of B (percent) per equipment. -/
def equipment_rrB : Fin 6 → ℚ
  | 2 => 90
  | 3 => 99
  | _ => 0

/-- Removal ratio of C (percent) per equipment. -/
def equipment_rrC : Fin 6 → ℚ
  | 4 => 60
  | 5 => 80
  | _ => 0

/-- Param `beta(equip, comp)`: percent table entry divided by 100, and 0 for
the water component. -/
def beta (e : Fin 6) (c : Comp4) : ℚ :=
  match c with
  | .A => equipment_rrA e / 100
  | .B => equipment_rrB e / 100
  | .C => equipment_rrC e / 100
  | .W => 0

/-- Source line `((equip-1)//2)+1`: treatment unit owning an equipment
option (0-based: integer division by 2). -/
def unitOf (e : Fin 6) : Fin 3 := ⟨e.val / 2, by have := e.isLt; omega⟩

/-- One value per declared Pyomo variable of the model. -/
structure Asg where
  S_k : Fin 6 → Fin 4 → Comp4 → ℚ
  M_k : Fin 4 → Fin 6 → Comp4 → ℚ
  IPU : Fin 3 → Comp4 → ℚ
  OPU : Fin 3 → Comp4 → ℚ
  split : Fin 6 → Fin 4 → ℚ

/-- Sum of mixer `m`'s inbound streams for component `c`. -/
abbrev mixInSum (a : Asg) (m : Fin 4) (c : Comp4) : ℚ :=
  qsum fun i => a.M_k m i c

/-- Constraint `mixer_balance(m, mixer, comp)`: mixers before the last one
(source `mixer < len(m.mixers)`, 0-based `m.val < 3`) balance against the
treatment-unit inlet as an equality; at the last mixer the source returns
`out_comp_flow[comp] == sum(...)` for `'W'` and
`out_comp_flow[comp] >= sum(...)` for every other component. -/
def mixer_balance (a : Asg) (m : Fin 4) (c : Comp4) : Prop :=
  if h : m.val < 3 then a.IPU ⟨m.val, h⟩ c = mixInSum a m c
  else if c = .W then out_comp_flow c = mixInSum a m c
  else out_comp_flow c ≥ mixInSum a m c

instance (a : Asg) (m : Fin 4) (c : Comp4) : Decidable (mixer_balance a m c) := by
  unfold mixer_balance
  by_cases h : m.val < 3
  · rw [dif_pos h]
    infer_instance
  · rw [dif_neg h]
    by_cases hc : c = .W
    · rw [if_pos hc]
      infer_instance
    · rw [if_neg hc]
      infer_instance

/-- Constraint `split_mix`: `M_k[mixer,splitter,comp] == S_k[splitter,mixer,comp]`. -/
abbrev split_mix (a : Asg) (s : Fin 6) (m : Fin 4) (c : Comp4) : Prop :=
  a.M_k m s c = a.S_k s m c

/-- Inlet stream of splitter `s` (source branch `splitter <= len(m.in_flows)`,
0-based `s.val < 3`). -/
def splitterInlet (a : Asg) (s : Fin 6) (c : Comp4) : ℚ :=
  if h : s.val < 3 then in_comp_flow ⟨s.val, h⟩ c
  else a.OPU ⟨s.val - 3, by have := s.isLt; omega⟩ c

/-- Constraint `splitter_balance`. -/
abbrev splitter_balance (a : Asg) (s : Fin 6) (c : Comp4) : Prop :=
  splitterInlet a s c = qsum fun o => a.S_k s o c

/-- Constraint `split_fraction_balance`. -/
abbrev split_fraction_balance (a : Asg) (s : Fin 6) : Prop :=
  1 = qsum fun o => a.split s o

/-- Constraint `flow_split_balance`. -/
abbrev flow_split_balance (a : Asg) (s : Fin 6) (o : Fin 4) (c : Comp4) : Prop :=
  a.S_k s o c = a.split s o * splitterInlet a s c

/-- Constraint `total_tru_flow_balance`: `IPU[equip,'W'] == OPU[equip,'W']`. -/
abbrev total_tru_flow_balance (a : Asg) (t : Fin 3) : Prop :=
  a.IPU t .W = a.OPU t .W

/-- Constraints of disjunct `equipment_disjuncts[equip]`:
`OPU[((equip-1)//2)+1,comp] == (1-beta[equip,comp])*IPU[((equip-1)//2)+1,comp]`
for every component. -/
abbrev equipment_block (a : Asg) (e : Fin 6) : Prop :=
  ∀ c, a.OPU (unitOf e) c = (1 - beta e c) * a.IPU (unitOf e) c

/-- Members of the per-unit disjunctions `TX`, `TXX`, `TXXX`. -/
def TX_members : List (Fin 6) := [0, 1]

/-- Members of disjunction `TXX`. -/
def TXX_members : List (Fin 6) := [2, 3]

/-- Members of disjunction `TXXX`. -/
def TXXX_members : List (Fin 6) := [4, 5]

/-- Declared variable domains. -/
abbrev Domains (a : Asg) : Prop :=
  (∀ s o c, 0 ≤ a.S_k s o c) ∧ (∀ m i c, 0 ≤ a.M_k m i c) ∧
  (∀ t c, 0 ≤ a.IPU t c) ∧ (∀ t c, 0 ≤ a.OPU t c) ∧
  (∀ s o, 0 ≤ a.split s o ∧ a.split s o ≤ 1)

/-- Algebraic (non-disjunctive) part of the model: all global constraint
families plus variable domains. -/
abbrev Feasible (a : Asg) : Prop :=
  (∀ m c, mixer_balance a m c) ∧
  (∀ s m c, split_mix a s m c) ∧
  (∀ s c, splitter_balance a s c) ∧
  (∀ s, split_fraction_balance a s) ∧
  (∀ s o c, flow_split_balance a s o c) ∧
  (∀ t, total_tru_flow_balance a t) ∧
  Domains a

/-- Objective `minCost = sum(IPU[t,'W'] for t in m.tru)`. -/
def minCost (a : Asg) : ℚ := qsum fun t : Fin 3 => a.IPU t .W

/-- The all-zero assignment. -/
def zeroAsg : Asg :=
  ⟨fun _ _ _ => 0, fun _ _ _ => 0, fun _ _ => 0, fun _ _ => 0, fun _ _ => 0⟩

end WTNE8

namespace SLWTN

/-- Removal ratio of A (percent) per equipment, column 2 of `equipment_info`. -/
def equipment_rrA : Fin 9 → ℚ
  | 0 => 90
  | 1 => 50
  | 5 => 50
  | 6 => 80
  | _ => 0

/-- Removal ratio of B (percent) per equipment, column 3 of `equipment_info`. -/
def equipment_rrB : Fin 9 → ℚ
  | 1 => 70
  | 2 => 80
  | 3 => 90
  | 4 => 99
  | 5 => 99
  | _ => 0

/-- Removal ratio of C (percent) per equipment, column 4 of `equipment_info`. -/
def equipment_rrC : Fin 9 → ℚ
  | 0 => 40
  | 5 => 80
  | 6 => 60
  | 7 => 80
  | 8 => 40
  | _ => 0

/-- Param `beta(equip, comp)`: percent table entry divided by 100, and 0 for
the water component. -/
def beta (e : Fin 9) (c : Comp4) : ℚ :=
  match c with
  | .A => equipment_rrA e / 100
  | .B => equipment_rrB e / 100
  | .C => equipment_rrC e / 100
  | .W => 0

/-- Param `alpha(equip)`: investment cost coefficient, column 5 of
`equipment_info`. -/
def alpha : Fin 9 → ℚ
  | 0 => 3480
  | 1 => 469
  | 2 => 26
  | 3 => 726
  | 4 => 1260
  | 5 => 5000
  | 6 => 320
  | 7 => 58
  | 8 => 10

/-- Param `gamma(equip)`: operating cost coefficient, column 6 of
`equipment_info`. -/
def gamma : Fin 9 → ℚ
  | 0 => 0
  | 1 => 10
  | 2 => 1
  | 3 => 0.0089
  | 4 => 0.018
  | 5 => 5.8
  | 6 => 6
  | 7 => 15
  | 8 => 1

/-- Source expression `((equip-1)//3)+1`: treatment unit owning an equipment
option (0-based: integer division by 3). -/
def unitOf (e : Fin 9) : Fin 3 := ⟨e.val / 3, by have := e.isLt; omega⟩

/-- Variables of the model touched by the equipment disjuncts: treatment-unit
inlet/outlet component flows and the per-unit cost variable `CP_k`.  The
disjunct constraints use the real power `F**0.7`, so this model is embedded
over `ℝ`. -/
structure Asg where
  IPU : Fin 3 → Comp4 → ℝ
  OPU : Fin 3 → Comp4 → ℝ
  CP_k : Fin 3 → ℝ

/-- Constraints of disjunct `equipment_disjuncts[equip]`: the per-component
removal equalities and the cost equation
`CP_k[unit]/1000 == (alpha[equip]*(F**0.7) + gamma[equip]*F)/1000` with
`F = OPU[unit,'W']`. -/
def equipment_block (a : Asg) (e : Fin 9) : Prop :=
  (∀ c, a.OPU (unitOf e) c = (1 - (beta e c : ℝ)) * a.IPU (unitOf e) c) ∧
  a.CP_k (unitOf e) / 1000 =
    ((alpha e : ℝ) * a.OPU (unitOf e) .W ^ (0.7 : ℝ) +
      (gamma e : ℝ) * a.OPU (unitOf e) .W) / 1000

/-- Members of disjunction `TX` ("Treatment Unit 1"):
`[equipment_disjuncts[1], equipment_disjuncts[2], equipment_disjuncts[3]]`. -/
def TX_members : List (Fin 9) := [0, 1, 2]

/-- Members of disjunction `TXX` ("Treatment Unit 2"). -/
def TXX_members : List (Fin 9) := [3, 4, 5]

/-- Members of disjunction `TXXX` ("Treatment Unit 3"). -/
def TXXX_members : List (Fin 9) := [6, 7, 8]

/-- Objective `minCost = sum(CP_k[i] for i in m.tru)`. -/
def minCost (a : Asg) : ℝ :=
  (List.finRange 3).foldr (fun i acc => a.CP_k i + acc) 0

/-- The all-zero assignment. -/
noncomputable def zeroAsg : Asg := ⟨fun _ _ => 0, fun _ _ => 0, fun _ => 0⟩

end SLWTN

namespace Draft

/-- Concentration variables `m.cA`, `m.cB` of the unfinished draft script
examples/gdp/waterTreatmentNetwork.py, indexed by stream number
(`m.streams = RangeSet(3, 19)`; only streams 9–12 appear in the disjuncts). -/
structure Asg where
  cA : ℕ → ℚ
  cB : ℕ → ℚ

/-- The four disjunct blocks declared by the draft. -/
inductive DisjLabel where
  | use_TX1 | use_TX2 | use_TXX1 | use_TXX2
deriving DecidableEq

/-- Constraints attached to each disjunct block.  The draft writes them with
a single `=` (`Constraint(expr=m.cA[11] = 0.1*m.cA[9])`, a Python syntax
error); the evident intended relation, equality, is embedded. -/
abbrev DisjLabel.constraintsHold : DisjLabel → Asg → Prop
  | .use_TX1, a => a.cA 11 = 0.1 * a.cA 9 ∧ a.cB 11 = a.cB 9
  | .use_TX2, a => a.cA 11 = 0.5 * a.cA 9 ∧ a.cB 11 = 0.3 * a.cB 9
  | .use_TXX1, a => a.cA 12 = a.cA 10 ∧ a.cB 12 = 0.1 * a.cB 10
  | .use_TXX2, a => a.cA 12 = 0.5 * a.cA 10 ∧ a.cB 12 = 0.01 * a.cB 10

instance (d : DisjLabel) (a : Asg) : Decidable (d.constraintsHold a) := by
  cases d <;> exact inferInstanceAs (Decidable (_ ∧ _))

/-- Members of `m.use_TX1_or_TX2 = Disjunction(expr=[m.use_TX1, m.use_TX2])`. -/
def use_TX1_or_TX2_members : List DisjLabel := [.use_TX1, .use_TX2]

/-- Members of `m.use_TXX1_or_TXX2` exactly as the draft writes them:
`Disjunction(expr=[m.use_TX1, m.use_TX2])` — unit TX's blocks, not
`use_TXX1`/`use_TXX2`. -/
def use_TXX1_or_TXX2_members : List DisjLabel := [.use_TX1, .use_TX2]

/-- Disjunction semantics: at least one member block's constraints hold
(under the exactly-one GDP reading, the selected member's constraints hold,
which implies this). -/
abbrev disjSat (members : List DisjLabel) (a : Asg) : Prop :=
  ∃ d ∈ members, d.constraintsHold a

/-- A concrete assignment: streams 9 and 11 carry zero concentrations, the
unit-TXX streams 10 and 12 do not satisfy any TXX removal equation. -/
def a0 : Asg :=
  ⟨fun n => if n = 10 then 1 else if n = 12 then 7 else 0,
   fun n => if n = 10 then 1 else if n = 12 then 7 else 0⟩

end Draft

namespace Demo

/-- Treatment units `m.treatment_units = {'unit1', 'unit2'}` of
waterDemo.py. -/
inductive Tru where
  | unit1 | unit2
deriving DecidableEq, Fintype

/-- Flow destinations `tru | outlet = {'unit1', 'unit2', 'out'}`. -/
inductive Sink where
  | unit1 | unit2 | out
deriving DecidableEq, Fintype

/-- Flow sources `inlet | tru = {'in1', 'in2', 'unit1', 'unit2'}`. -/
inductive Src where
  | in1 | in2 | unit1 | unit2
deriving DecidableEq, Fintype

/-- Inlet streams `m.inlet = {'in1', 'in2'}`. -/
inductive Inlet where
  | in1 | in2
deriving DecidableEq, Fintype

/-- A treatment unit viewed as a flow destination. -/
def Tru.toSink : Tru → Sink
  | .unit1 => .unit1
  | .unit2 => .unit2

/-- A treatment unit viewed as a flow source. -/
def Tru.toSrc : Tru → Src
  | .unit1 => .unit1
  | .unit2 => .unit2

/-- An inlet stream viewed as a flow source. -/
def Inlet.toSrc : Inlet → Src
  | .in1 => .in1
  | .in2 => .in2

/-- Inlet component flows `in_flow` of waterDemo.py. -/
def in_flow : Inlet → Comp3 → ℚ
  | .in1, .A => 4000
  | .in1, .B => 800
  | .in1, .W => 40
  | .in2, .A => 600
  | .in2, .B => 8000
  | .in2, .W => 40

/-- Removal ratios `perf` of waterDemo.py; `W` is removed by neither unit. -/
def perf : Tru → Comp3 → ℚ
  | .unit1, .A => 0.95
  | .unit1, .B => 0
  | .unit1, .W => 0
  | .unit2, .A => 0
  | .unit2, .B => 0.976
  | .unit2, .W => 0

/-- One value per declared Pyomo variable of the flat demo model. -/
structure Asg where
  in_split_frac : Sink → ℚ
  flow : Src → Sink → Comp3 → ℚ
  flow_into_tru : Tru → Comp3 → ℚ
  flow_from_tru : Tru → Comp3 → ℚ
  tru_split_frac : Tru → Sink → ℚ
  flow_out : Comp3 → ℚ

/-- Constraint `inlet_mass_bal`:
`in_flow[flow][comp] * in_split_frac[sink] == flow[flow, sink, comp]`.
Note the split fractions are shared by both inlets. -/
abbrev inlet_mass_bal (a : Asg) (i : Inlet) (s : Sink) (c : Comp3) : Prop :=
  in_flow i c * a.in_split_frac s = a.flow i.toSrc s c

/-- Constraint `inlet_frac_sum`: the inlet split fractions sum to 1. -/
abbrev inlet_frac_sum (a : Asg) : Prop :=
  a.in_split_frac .unit1 + a.in_split_frac .unit2 + a.in_split_frac .out = 1

/-- Constraint `tru_mix_bal`: everything flowing towards a treatment unit
adds up to its inlet flow. -/
abbrev tru_mix_bal (a : Asg) (t : Tru) (c : Comp3) : Prop :=
  a.flow .in1 t.toSink c + a.flow .in2 t.toSink c +
    a.flow .unit1 t.toSink c + a.flow .unit2 t.toSink c = a.flow_into_tru t c

/-- Constraint `tru_performance`:
`flow_from_tru[tru, comp] == flow_into_tru[tru, comp] * (1 - perf[tru][comp])`. -/
abbrev tru_performance (a : Asg) (t : Tru) (c : Comp3) : Prop :=
  a.flow_from_tru t c = a.flow_into_tru t c * (1 - perf t c)

/-- Constraint `tru_split_bal`:
`flow_from_tru[tru, comp] * tru_split_frac[tru, sink] == flow[tru, sink, comp]`. -/
abbrev tru_split_bal (a : Asg) (t : Tru) (s : Sink) (c : Comp3) : Prop :=
  a.flow_from_tru t c * a.tru_split_frac t s = a.flow t.toSrc s c

/-- Constraint `tru_split_sum`: each unit's split fractions sum to 1. -/
abbrev tru_split_sum (a : Asg) (t : Tru) : Prop :=
  a.tru_split_frac t .unit1 + a.tru_split_frac t .unit2 + a.tru_split_frac t .out = 1

/-- Constraint `outlet_mix_bal`: the outlet flow collects everything routed
to `'out'`. -/
abbrev outlet_mix_bal (a : Asg) (c : Comp3) : Prop :=
  a.flow_out c =
    a.flow .in1 .out c + a.flow .in2 .out c + a.flow .unit1 .out c + a.flow .unit2 .out c

/-- Constraint `outlet_mix_limit`: `outlet_limit = {'A': 800, 'B': 800}`;
`W` gets `Constraint.NoConstraint`. -/
abbrev outlet_mix_limit (a : Asg) : Prop :=
  a.flow_out .A ≤ 800 ∧ a.flow_out .B ≤ 800

/-- Declared variable domains: every variable is `NonNegativeReals` and the
split-fraction variables carry `bounds=(0, 1)`. -/
abbrev Domains (a : Asg) : Prop :=
  (∀ s, 0 ≤ a.in_split_frac s ∧ a.in_split_frac s ≤ 1) ∧
  (∀ f s c, 0 ≤ a.flow f s c) ∧
  (∀ t c, 0 ≤ a.flow_into_tru t c) ∧
  (∀ t c, 0 ≤ a.flow_from_tru t c) ∧
  (∀ t s, 0 ≤ a.tru_split_frac t s ∧ a.tru_split_frac t s ≤ 1) ∧
  (∀ c, 0 ≤ a.flow_out c)

/-- Feasibility: all constraint families of the flat demo model plus
variable domains. -/
abbrev Feasible (a : Asg) : Prop :=
  (∀ i s c, inlet_mass_bal a i s c) ∧
  inlet_frac_sum a ∧
  (∀ t c, tru_mix_bal a t c) ∧
  (∀ t c, tru_performance a t c) ∧
  (∀ t s c, tru_split_bal a t s c) ∧
  (∀ t, tru_split_sum a t) ∧
  (∀ c, outlet_mix_bal a c) ∧
  outlet_mix_limit a ∧
  Domains a

/-- Objective `sum(m.flow_into_tru[t, 'W'] for t in tru)` (minimized). -/
def objective (a : Asg) : ℚ := a.flow_into_tru .unit1 .W + a.flow_into_tru .unit2 .W

/-- Treatment-unit inlet flows of a concrete feasible routing: both inlets
wholly into unit 1, unit 1's effluent wholly into unit 2, unit 2's effluent
wholly discharged. -/
def solInto : Tru → Comp3 → ℚ
  | .unit1, .A => 4600
  | .unit1, .B => 8800
  | .unit1, .W => 80
  | .unit2, .A => 230
  | .unit2, .B => 8800
  | .unit2, .W => 80

/-- Treatment-unit outlet flows of the concrete routing. -/
def solFrom : Tru → Comp3 → ℚ
  | .unit1, .A => 230
  | .unit1, .B => 8800
  | .unit1, .W => 80
  | .unit2, .A => 230
  | .unit2, .B => 1056/5
  | .unit2, .W => 80

/-- Arc flows of the concrete routing. -/
def solFlow : Src → Sink → Comp3 → ℚ
  | .in1, .unit1, c => in_flow .in1 c
  | .in2, .unit1, c => in_flow .in2 c
  | .unit1, .unit2, c => solFrom .unit1 c
  | .unit2, .out, c => solFrom .unit2 c
  | _, _, _ => 0

/-- Inlet split fractions of the concrete routing. -/
def solInSplit : Sink → ℚ
  | .unit1 => 1
  | _ => 0

/-- Treatment-unit split fractions of the concrete routing. -/
def solTruSplit : Tru → Sink → ℚ
  | .unit1, .unit2 => 1
  | .unit2, .out => 1
  | _, _ => 0

/-- Outlet flows of the concrete routing. -/
def solOut : Comp3 → ℚ
  | .A => 230
  | .B => 1056/5
  | .W => 80

/-- A concrete feasible assignment of the flat demo model. -/
def sol : Asg := ⟨solInSplit, solFlow, solInto, solFrom, solTruSplit, solOut⟩

end Demo

/-- The concrete routing `SWTN.sol` satisfies every constraint of
simpleWaterTreatmentNetwork.py. -/
theorem swtn_sol_feasible : SWTN.Feasible SWTN.sol := by decide!

/-- The concrete routing `Demo.sol` satisfies every constraint of
waterDemo.py. -/
theorem demo_sol_feasible : Demo.Feasible Demo.sol := by decide!

/-- C1 (amended): in both builders every non-terminal mixer contributes, for
every component, the linear equality "sum of inbound component flows equals
the treatment-unit inlet flow".  At the terminal mixer, WTN_e8_CF.py
constrains the carrier component `'W'` to equal the discharge target and
every other component's inbound sum only by the upper bound `≤ target`;
simpleWaterTreatmentNetwork.py instead constrains EVERY component's inbound
sum to equal the discharge target (an equality also for the non-carrier
components). -/
theorem C1_mixer_balance_shape :
    (∀ (a : WTNE8.Asg) (m : Fin 3) (c : Comp4),
      WTNE8.mixer_balance a m.castSucc c ↔ a.IPU m c = WTNE8.mixInSum a m.castSucc c) ∧
    (∀ a : WTNE8.Asg,
      WTNE8.mixer_balance a 3 .W ↔ WTNE8.out_comp_flow .W = WTNE8.mixInSum a 3 .W) ∧
    (∀ (a : WTNE8.Asg) (c : Comp4), c ≠ .W →
      (WTNE8.mixer_balance a 3 c ↔ WTNE8.mixInSum a 3 c ≤ WTNE8.out_comp_flow c)) ∧
    (∀ (a : SWTN.Asg) (m : Fin 2) (c : Comp3),
      SWTN.mixer_balance a m.castSucc c ↔ a.IPU m c = SWTN.mixInSum a m.castSucc c) ∧
    (∀ (a : SWTN.Asg) (c : Comp3),
      SWTN.mixer_balance a 2 c ↔ SWTN.out_comp_flow c = SWTN.mixInSum a 2 c) := by
  refine ⟨?_, ?_, ?_, ?_, ?_⟩
  · intro a m c
    fin_cases m <;> exact Iff.rfl
  · intro a
    exact Iff.rfl
  · intro a c hc
    cases c with
    | A => exact Iff.rfl
    | B => exact Iff.rfl
    | C => exact Iff.rfl
    | W => exact absurd rfl hc
  · intro a m c
    fin_cases m <;> exact Iff.rfl
  · intro a c
    exact Iff.rfl

/-- C1 witness: the hypothesis-bearing part of `C1_mixer_balance_shape`
instantiated at the all-zero assignment and component `'A'`. -/
theorem C1_mixer_balance_shape_witness :
    WTNE8.mixer_balance WTNE8.zeroAsg 3 .A ↔
      WTNE8.mixInSum WTNE8.zeroAsg 3 .A ≤ WTNE8.out_comp_flow .A :=
  C1_mixer_balance_shape.2.2.1 WTNE8.zeroAsg .A (by decide)

/-- C1 counterexample: in simpleWaterTreatmentNetwork.py the terminal
mixer's constraint for the non-carrier component `'A'` is NOT the mere upper
bound the claim asserts: the all-zero assignment satisfies the claimed
inequality (0 ≤ discharge target) yet violates the constraint the builder
actually emits (an equality). -/
theorem C1_terminal_equality_counterexample :
    SWTN.mixInSum SWTN.zeroAsg 2 .A ≤ SWTN.out_comp_flow .A ∧
      ¬ SWTN.mixer_balance SWTN.zeroAsg 2 .A := by decide!

/-- C2: in the working script small_lit/waterTreatmentNetwork.py each of the
three disjunctions `TX`, `TXX`, `TXXX` groups exactly the equipment options
owned by its treatment unit (`((equip-1)//3)+1`).  In the draft script
waterTreatmentNetwork.py, however, the disjunction named
`use_TXX1_or_TXX2` is built from unit TX's blocks `use_TX1`, `use_TX2`,
so there is an assignment satisfying both built disjunctions while neither
of unit TXX's own removal blocks holds — contradicting the claim (and the
draft's own comment). -/
theorem C2_disjunction_grouping :
    (SLWTN.TX_members = (List.finRange 9).filter (fun e => SLWTN.unitOf e = 0)) ∧
    (SLWTN.TXX_members = (List.finRange 9).filter (fun e => SLWTN.unitOf e = 1)) ∧
    (SLWTN.TXXX_members = (List.finRange 9).filter (fun e => SLWTN.unitOf e = 2)) ∧
    (Draft.use_TXX1_or_TXX2_members = [.use_TX1, .use_TX2]) ∧
    Draft.disjSat Draft.use_TX1_or_TX2_members Draft.a0 ∧
    Draft.disjSat Draft.use_TXX1_or_TXX2_members Draft.a0 ∧
    ¬ Draft.DisjLabel.use_TXX1.constraintsHold Draft.a0 ∧
    ¬ Draft.DisjLabel.use_TXX2.constraintsHold Draft.a0 := by decide!

/-- C3: at any feasible assignment of simpleWaterTreatmentNetwork.py, every
treatment unit conserves the carrier component `'W'` (inlet equals outlet)
and satisfies the removal equation
`OPU[t,c] = (1 - beta[t,c]) * IPU[t,c]` for every component (each unit of
this script has exactly one equipment option, applied unconditionally). -/
theorem C3_treatment_unit_conservation :
    ∀ a : SWTN.Asg, SWTN.Feasible a → ∀ t : Fin 2,
      a.IPU t .W = a.OPU t .W ∧
        ∀ c, a.OPU t c = (1 - SWTN.beta t c) * a.IPU t c := by
  intro a h t
  obtain ⟨-, -, -, -, -, hrem, htru, -⟩ := h
  exact ⟨htru t, fun c => hrem t c⟩

/-- C3 witness: `C3_treatment_unit_conservation` applied to the concrete
feasible routing `SWTN.sol` at treatment unit 1. -/
theorem C3_treatment_unit_conservation_witness :
    SWTN.Feasible SWTN.sol ∧
      SWTN.sol.IPU 0 .W = SWTN.sol.OPU 0 .W ∧
      SWTN.sol.OPU 0 .B = (1 - SWTN.beta 0 .B) * SWTN.sol.IPU 0 .B :=
  ⟨swtn_sol_feasible,
    (C3_treatment_unit_conservation SWTN.sol swtn_sol_feasible 0).1,
    (C3_treatment_unit_conservation SWTN.sol swtn_sol_feasible 0).2 .B⟩

/-- C4: at any feasible assignment of simpleWaterTreatmentNetwork.py, every
splitter outlet's component flow equals the splitter's fraction for that
outlet times the splitter's inlet component flow (bilinear identity). -/
theorem C4_flow_split_bilinear :
    ∀ a : SWTN.Asg, SWTN.Feasible a → ∀ (s : Fin 4) (o : Fin 3) (c : Comp3),
      a.S_k s o c = a.split s o * SWTN.splitterInlet a s c := by
  intro a h
  exact h.2.2.2.2.1

/-- C4 witness: `C4_flow_split_bilinear` applied to the concrete feasible
routing `SWTN.sol` at splitter 3, outlet 2, component `'B'`. -/
theorem C4_flow_split_bilinear_witness :
    SWTN.Feasible SWTN.sol ∧
      SWTN.sol.S_k 2 1 .B = SWTN.sol.split 2 1 * SWTN.splitterInlet SWTN.sol 2 .B :=
  ⟨swtn_sol_feasible, C4_flow_split_bilinear SWTN.sol swtn_sol_feasible 2 1 .B⟩

/-- C5: at any feasible assignment of simpleWaterTreatmentNetwork.py, each
splitter's outlet split fractions sum to exactly 1, and every split-fraction
variable respects its declared bounds `[0, 1]`. -/
theorem C5_split_fraction_invariants :
    ∀ a : SWTN.Asg, SWTN.Feasible a →
      (∀ s : Fin 4, qsum (fun o => a.split s o) = 1) ∧
      (∀ s o, 0 ≤ a.split s o ∧ a.split s o ≤ 1) := by
  intro a h
  obtain ⟨-, -, -, hfrac, -, -, -, -, -, -, -, hb⟩ := h
  exact ⟨fun s => (hfrac s).symm, hb⟩

/-- C5 witness: `C5_split_fraction_invariants` applied to the concrete
feasible routing `SWTN.sol` at splitter 3. -/
theorem C5_split_fraction_invariants_witness :
    SWTN.Feasible SWTN.sol ∧
      qsum (fun o => SWTN.sol.split 2 o) = 1 ∧
      0 ≤ SWTN.sol.split 2 1 ∧ SWTN.sol.split 2 1 ≤ 1 :=
  ⟨swtn_sol_feasible,
    (C5_split_fraction_invariants SWTN.sol swtn_sol_feasible).1 2,
    (C5_split_fraction_invariants SWTN.sol swtn_sol_feasible).2 2 1⟩

/-- C7: for the example instance of simpleWaterTreatmentNetwork.py (two
40 t/h inlets with concentrations {A:100,B:20} and {A:15,B:200}, removal
ratios 95% A and 97.6% B, limits 10 ppm), the builder's total outlet flow is
80 t/h and the concrete routing `SWTN.sol` is feasible with every terminal
discharge at or below its limit. -/
theorem C7_example_scenario :
    SWTN.out_flow_total = 80 ∧ SWTN.Feasible SWTN.sol ∧
      ∀ c, SWTN.mixInSum SWTN.sol 2 c ≤ SWTN.out_comp_flow c :=
  ⟨by decide!, swtn_sol_feasible, by decide!⟩

/-- C8: in small_lit/waterTreatmentNetwork.py, any assignment satisfying an
equipment option's disjunct block ties the owning unit's cost variable to
the concave law `CP_k = alpha * F^0.7 + gamma * F` with `F` the carrier
flow `OPU[unit,'W']`; and the objective is the sum of the per-unit cost
variables. -/
theorem C8_concave_cost_law :
    (∀ (a : SLWTN.Asg) (e : Fin 9), SLWTN.equipment_block a e →
      a.CP_k (SLWTN.unitOf e) =
        (SLWTN.alpha e : ℝ) * a.OPU (SLWTN.unitOf e) .W ^ (0.7 : ℝ) +
          (SLWTN.gamma e : ℝ) * a.OPU (SLWTN.unitOf e) .W) ∧
    (∀ a : SLWTN.Asg, SLWTN.minCost a = a.CP_k 0 + a.CP_k 1 + a.CP_k 2) := by
  constructor
  · intro a e h
    have h2 := h.2
    rw [div_eq_div_iff (by norm_num) (by norm_num)] at h2
    exact mul_right_cancel₀ (by norm_num : (1000 : ℝ) ≠ 0) h2
  · intro a
    show a.CP_k 0 + (a.CP_k 1 + (a.CP_k 2 + 0)) = a.CP_k 0 + a.CP_k 1 + a.CP_k 2
    ring

/-- C8 witness: the all-zero assignment satisfies equipment option 1's
disjunct block (using `0 ^ 0.7 = 0`), and `C8_concave_cost_law` yields its
cost identity there. -/
theorem C8_concave_cost_law_witness :
    SLWTN.equipment_block SLWTN.zeroAsg 0 ∧
      SLWTN.zeroAsg.CP_k (SLWTN.unitOf 0) =
        (SLWTN.alpha 0 : ℝ) * SLWTN.zeroAsg.OPU (SLWTN.unitOf 0) .W ^ (0.7 : ℝ) +
          (SLWTN.gamma 0 : ℝ) * SLWTN.zeroAsg.OPU (SLWTN.unitOf 0) .W := by
  have hb : SLWTN.equipment_block SLWTN.zeroAsg 0 := by
    constructor
    · intro c
      simp [SLWTN.zeroAsg]
    · simp [SLWTN.zeroAsg, Real.zero_rpow (by norm_num : (0.7 : ℝ) ≠ 0)]
  exact ⟨hb, C8_concave_cost_law.1 SLWTN.zeroAsg 0 hb⟩

/-- C10: in waterDemo.py every feasible assignment routes exactly 80 t/h of
carrier out: the inlet and per-unit split fractions each sum to 1, the units
remove none of `'W'`, and the mixing balances then force
`flow_out['W'] = 80` even though no single constraint fixes it. -/
theorem C10_outlet_carrier_flow :
    ∀ a : Demo.Asg, Demo.Feasible a → a.flow_out .W = 80 := by
  intro a h
  obtain ⟨hin, hfs, hmix, hperf, hsb, hss, hob, -, -⟩ := h
  have hA1u1 := hin .in1 .unit1 .W
  have hA1u2 := hin .in1 .unit2 .W
  have hA1o := hin .in1 .out .W
  have hA2u1 := hin .in2 .unit1 .W
  have hA2u2 := hin .in2 .unit2 .W
  have hA2o := hin .in2 .out .W
  have hC1 := hmix .unit1 .W
  have hC2 := hmix .unit2 .W
  have hD1 := hperf .unit1 .W
  have hD2 := hperf .unit2 .W
  have hE1u1 := hsb .unit1 .unit1 .W
  have hE1u2 := hsb .unit1 .unit2 .W
  have hE1o := hsb .unit1 .out .W
  have hE2u1 := hsb .unit2 .unit1 .W
  have hE2u2 := hsb .unit2 .unit2 .W
  have hE2o := hsb .unit2 .out .W
  have hF1 := hss .unit1
  have hF2 := hss .unit2
  have hG := hob .W
  simp only [Demo.inlet_mass_bal, Demo.inlet_frac_sum, Demo.tru_mix_bal,
    Demo.tru_performance, Demo.tru_split_bal, Demo.tru_split_sum,
    Demo.outlet_mix_bal, Demo.in_flow, Demo.perf, Demo.Tru.toSink,
    Demo.Tru.toSrc, Demo.Inlet.toSrc] at *
  linear_combination hG - hA1o - hA2o - hE1o - hE2o +
    a.flow_from_tru .unit1 .W * hF1 + a.flow_from_tru .unit2 .W * hF2 -
    hE1u1 - hE1u2 - hE2u1 - hE2u2 - hC1 - hC2 -
    hA1u1 - hA2u1 - hA1u2 - hA2u2 + 80 * hfs + hD1 + hD2

/-- C10 witness: `C10_outlet_carrier_flow` applied to the concrete feasible
routing `Demo.sol`. -/
theorem C10_outlet_carrier_flow_witness :
    Demo.Feasible Demo.sol ∧ Demo.sol.flow_out .W = 80 :=
  ⟨demo_sol_feasible, C10_outlet_carrier_flow Demo.sol demo_sol_feasible⟩
